import Mathlib

/-!
Shallow embedding of the `tsunami` plugin-loading subsystem
(crates/tsunami/src/lib.rs).

The embedding models the observable behaviour of the plugin manager:
its registered list of plugin handles, the result of each load
operation, and the trace of lifecycle events it performs (calls into a
loaded module, `on_load` and `on_unload` callbacks, and the destruction
order of the plugin value and its backing library).  Rust `CStr`
version strings are modelled as Lean `String`s compared for equality
(the source compares them byte for byte); the boxed
`dyn std::error::Error` payloads are modelled as `String`s.  The boxed
error returned by each `return Err(...)` site of the source is modelled
by one constructor of `LoadError`.
-/

set_option autoImplicit false

namespace Tsunami

/-- Lifecycle events observable from the subsystem, in the order the
code performs them: invocations of the three module entry points
(`_rustc_version`, `_package_version`, `_plugin_create`), the
`on_load` and `on_unload` callbacks of a plugin, the destruction of a
plugin value, and the release (unload) of a dynamically loaded
library. -/
inductive Event where
  | callRustcVersion
  | callPackageVersion
  | callCreatePlugin
  | callOnLoad (name : String)
  | callOnUnload (name : String)
  | dropPlugin (name : String)
  | releaseLibrary
  deriving Repr, DecidableEq

instance decEqExceptStringUnit : DecidableEq (Except String Unit) := fun a b =>
  match a, b with
  | .ok (), .ok () => isTrue rfl
  | .error x, .error y =>
    if h : x = y then isTrue (by rw [h])
    else isFalse (by intro hc; cases hc; exact h rfl)
  | .ok _, .error _ => isFalse (by intro hc; cases hc)
  | .error _, .ok _ => isFalse (by intro hc; cases hc)

/-- A plugin value, abstracting a `Box<dyn Plugin>`: its observable
behaviour is its `name()` and the result its `on_load()` callback
returns (`Ok(())` or an error payload).  `on_unload()` returns unit in
the source, so it carries no data here; `trigger` is not needed by any
claim. -/
structure Plugin where
  name : String
  onLoad : Except String Unit
  deriving Repr, DecidableEq

/-- The `PluginType` enum of the source: a dynamically loaded plugin
owning its library, or a statically linked plugin.  The `library`
field carries no observable state beyond its release event, so only
ownership is modelled. -/
inductive PluginType where
  | dynamic (plugin : Plugin)
  | static (plugin : Plugin)
  deriving Repr, DecidableEq

/-- `PluginType::plugin`: the plugin value inside either variant. -/
def PluginType.plugin : PluginType → Plugin
  | .dynamic p => p
  | .static p => p

/-- Events emitted when one `PluginType` handle is destroyed.  Rust
drops the fields of `PluginType::Dynamic` in declaration order, which
the source declares as `plugin` first and `library` second, so the
plugin value is dropped strictly before the library is released. -/
def PluginType.dropEvents : PluginType → List Event
  | .dynamic p => [.dropPlugin p.name, .releaseLibrary]
  | .static p => [.dropPlugin p.name]

/-- The `PluginManager` struct: an ordered list of handles in load
order. -/
structure PluginManager where
  plugins : List PluginType
  deriving Repr, DecidableEq

/-- `PluginManager::new()`: the empty manager. -/
def PluginManager.new : PluginManager := ⟨[]⟩

/-- Trace of `PluginManager::unload`: the drain loop calls
`on_unload()` on each handle in order, and drops the drained handle at
the end of each iteration. -/
def unloadTrace : List PluginType → List Event
  | [] => []
  | pt :: rest => .callOnUnload pt.plugin.name :: (pt.dropEvents ++ unloadTrace rest)

/-- `PluginManager::unload`: drains every handle; returns the new
manager state and the emitted event trace. -/
def PluginManager.unload (m : PluginManager) : PluginManager × List Event :=
  (⟨[]⟩, unloadTrace m.plugins)

/-- Events emitted when a list of handles is dropped without
`on_unload` being called (used to model dropping the residual `Vec`
after the drain). -/
def dropListTrace : List PluginType → List Event
  | [] => []
  | pt :: rest => pt.dropEvents ++ dropListTrace rest

/-- Trace of `impl Drop for PluginManager`: `drop` calls
`self.unload()`, after which the (now empty) `Vec` of handles is
dropped. -/
def PluginManager.dropEvents (m : PluginManager) : List Event :=
  (m.unload).2 ++ dropListTrace (m.unload).1.plugins

/-- `PluginManager::plugins()`: the read-only iterator over registered
plugins, in load order.  Named `iterate` here because the structure
field already uses the name `plugins`. -/
def PluginManager.iterate (m : PluginManager) : List Plugin :=
  m.plugins.map PluginType.plugin

/-- The two version components checked during the handshake. -/
inductive VersionComponent where
  | toolchain
  | package
  deriving Repr, DecidableEq

/-- The errors `load_plugin` / `load_static_plugin` can return.  The
source returns boxed formatted-string errors; each constructor here
corresponds to one distinct `return Err(...)` site: `Library::new`
failing, a `library.get(symbol)` lookup failing, one of the two
version-string comparisons failing (the source formats the expected
and found strings into the message), and `on_load()` returning an
error. -/
inductive LoadError where
  | openFailed
  | missingSymbol (name : String)
  | versionMismatch (component : VersionComponent) (expected found : String)
  | onLoadFailure (inner : String)
  deriving Repr, DecidableEq

/-- The host constants `RUSTC_VERSION` and `PACKAGE_VERSION`, baked in
at compile time of the `tsunami` crate via `env!`.  Modelled as a
parameter because their concrete values are build dependent. -/
structure Host where
  RUSTC_VERSION : String
  PACKAGE_VERSION : String
  deriving Repr, DecidableEq

/-- A loadable module as the host observes it: each of the three entry
points is present or absent, the two version symbols return strings,
and `_plugin_create` constructs a plugin value. -/
structure Library where
  rustcVersionSym : Option String
  packageVersionSym : Option String
  pluginCreateSym : Option Plugin
  deriving Repr, DecidableEq

/-- `PluginManager::load_plugin`: the dynamic loader.  `openResult` is
the outcome of `Library::new(filename)` (`none` when opening the
module fails).  Returns the manager state (unchanged on every error
path, since the source only touches `self.plugins` in the final
`push`), the result, and the event trace.  Early returns drop the
still-local library, releasing the module; after `_plugin_create` the
library is owned by the `PluginType::Dynamic` handle and its release
is part of that handle's drop events. -/
def PluginManager.load_plugin (m : PluginManager) (host : Host)
    (openResult : Option Library) :
    PluginManager × Except LoadError Unit × List Event :=
  match openResult with
  | none => (m, .error .openFailed, [])
  | some library =>
    match library.rustcVersionSym with
    | none => (m, .error (.missingSymbol "_rustc_version"), [.releaseLibrary])
    | some rustc_version =>
      if rustc_version ≠ host.RUSTC_VERSION then
        (m, .error (.versionMismatch .toolchain host.RUSTC_VERSION rustc_version),
          [.callRustcVersion, .releaseLibrary])
      else
        match library.packageVersionSym with
        | none => (m, .error (.missingSymbol "_package_version"),
            [.callRustcVersion, .releaseLibrary])
        | some package_version =>
          if package_version ≠ host.PACKAGE_VERSION then
            (m, .error (.versionMismatch .package host.PACKAGE_VERSION package_version),
              [.callRustcVersion, .callPackageVersion, .releaseLibrary])
          else
            match library.pluginCreateSym with
            | none => (m, .error (.missingSymbol "_plugin_create"),
                [.callRustcVersion, .callPackageVersion, .releaseLibrary])
            | some created =>
              match created.onLoad with
              | .error e =>
                (m, .error (.onLoadFailure e),
                  [.callRustcVersion, .callPackageVersion, .callCreatePlugin,
                    .callOnLoad created.name] ++ (PluginType.dynamic created).dropEvents)
              | .ok _ =>
                (⟨m.plugins ++ [PluginType.dynamic created]⟩, .ok (),
                  [.callRustcVersion, .callPackageVersion, .callCreatePlugin,
                    .callOnLoad created.name])

/-- `PluginManager::load_static_plugin`: wraps the plugin value in a
`PluginType::Static` handle, calls `on_load()`, and pushes the handle
on success; on error the handle is dropped and the manager is
unchanged. -/
def PluginManager.load_static_plugin (m : PluginManager) (p : Plugin) :
    PluginManager × Except LoadError Unit × List Event :=
  match p.onLoad with
  | .error e =>
    (m, .error (.onLoadFailure e),
      [.callOnLoad p.name] ++ (PluginType.static p).dropEvents)
  | .ok _ =>
    (⟨m.plugins ++ [PluginType.static p]⟩, .ok (), [.callOnLoad p.name])

/-- The module produced by the `declare_plugin!` macro for a plugin
type with the given zero-argument constructor: it exports all three
entry points; `_rustc_version` and `_package_version` return the
`tsunami` crate constants of the build that compiled the module
(`buildHost`), and `_plugin_create` boxes a freshly constructed
plugin value. -/
def declare_plugin (buildHost : Host) (constructor : Unit → Plugin) : Library :=
  { rustcVersionSym := some buildHost.RUSTC_VERSION
    packageVersionSym := some buildHost.PACKAGE_VERSION
    pluginCreateSym := some (constructor ()) }

/-- Selects the `on_unload` callback events of a trace. -/
def Event.isOnUnload : Event → Bool
  | .callOnUnload _ => true
  | _ => false

/-- Checks that every `releaseLibrary` event in a trace is immediately
preceded by the destruction of a plugin value, so a library is never
released before the plugin whose code it supplies has been dropped.
`prev` is the event preceding the remaining trace, if any. -/
def releaseAfterDrop (prev : Option Event) : List Event → Bool
  | [] => true
  | e :: rest =>
    (match e, prev with
      | .releaseLibrary, some (.dropPlugin _) => true
      | .releaseLibrary, _ => false
      | _, _ => true) && releaseAfterDrop (some e) rest

instance decEqExceptLoadErrorUnit : DecidableEq (Except LoadError Unit) := fun a b =>
  match a, b with
  | .ok (), .ok () => isTrue rfl
  | .error x, .error y =>
    if h : x = y then isTrue (by rw [h])
    else isFalse (by intro hc; cases hc; exact h rfl)
  | .ok _, .error _ => isFalse (by intro hc; cases hc)
  | .error _, .ok _ => isFalse (by intro hc; cases hc)

/-- Dropping a handle emits no `on_unload` callback. -/
theorem filter_isOnUnload_dropEvents (pt : PluginType) :
    pt.dropEvents.filter Event.isOnUnload = [] := by
  cases pt <;> rfl

/-- The drain trace, restricted to `on_unload` callbacks, is one
callback per handle, in list order. -/
theorem filter_unloadTrace (ps : List PluginType) :
    (unloadTrace ps).filter Event.isOnUnload
      = ps.map (fun pt => Event.callOnUnload pt.plugin.name) := by
  induction ps with
  | nil => rfl
  | cons pt rest ih =>
    simp [unloadTrace, List.filter_append, filter_isOnUnload_dropEvents,
      Event.isOnUnload, ih]

/-- C3: `unload` invokes `on_unload` exactly once on each registered
plugin, in load order (the trace restricted to `on_unload` events is
exactly one event per handle, in list order), and afterwards the
registered list is empty and iteration yields no elements. -/
theorem c3_unload_fires_on_unload_once_each_in_order (m : PluginManager) :
    ((m.unload).2.filter Event.isOnUnload)
      = m.plugins.map (fun pt => Event.callOnUnload pt.plugin.name)
    ∧ (m.unload).1.plugins = []
    ∧ (m.unload).1.iterate = [] :=
  ⟨filter_unloadTrace m.plugins, rfl, rfl⟩

/-- C4: dropping the manager produces exactly the event sequence of an
explicit `unload` call (in particular the same `on_unload` calls on
the same plugins in the same order), because `Drop::drop` delegates to
`unload` and the drained vector is empty afterwards. -/
theorem c4_drop_produces_same_sequence_as_unload (m : PluginManager) :
    m.dropEvents = (m.unload).2
    ∧ m.dropEvents.filter Event.isOnUnload = ((m.unload).2).filter Event.isOnUnload := by
  have h : m.dropEvents = (m.unload).2 := by
    simp [PluginManager.dropEvents, PluginManager.unload, dropListTrace]
  exact ⟨h, by rw [h]⟩

/-- C1: when a plugin whose `on_load` returns an error is registered,
statically or dynamically, the load operation returns the error, the
manager state is exactly what it was before, `on_unload` is never
called, and the constructed instance is discarded (dropped). -/
theorem c1_onload_error_aborts_registration (host : Host) (m : PluginManager)
    (p : Plugin) (lib : Library) (e : String)
    (hp : p.onLoad = .error e)
    (h1 : lib.rustcVersionSym = some host.RUSTC_VERSION)
    (h2 : lib.packageVersionSym = some host.PACKAGE_VERSION)
    (h3 : lib.pluginCreateSym = some p) :
    (m.load_static_plugin p).1 = m
    ∧ (m.load_static_plugin p).2.1 = .error (.onLoadFailure e)
    ∧ (∀ n, Event.callOnUnload n ∉ (m.load_static_plugin p).2.2)
    ∧ Event.dropPlugin p.name ∈ (m.load_static_plugin p).2.2
    ∧ (m.load_plugin host (some lib)).1 = m
    ∧ (m.load_plugin host (some lib)).2.1 = .error (.onLoadFailure e)
    ∧ (∀ n, Event.callOnUnload n ∉ (m.load_plugin host (some lib)).2.2)
    ∧ Event.dropPlugin p.name ∈ (m.load_plugin host (some lib)).2.2 := by
  simp [PluginManager.load_static_plugin, PluginManager.load_plugin, hp, h1, h2, h3,
    PluginType.dropEvents]

/-- C10: static registration fails exactly when `on_load` fails, with
the `on_load` error as the only failure mode, and a successful static
registration appends exactly one handle. -/
theorem c10_static_load_fails_iff_onload_fails (m : PluginManager) (p : Plugin) :
    ((∃ e, p.onLoad = .error e)
      ↔ (∃ e, (m.load_static_plugin p).2.1 = .error (.onLoadFailure e)))
    ∧ (∀ e, p.onLoad = .error e →
        (m.load_static_plugin p).2.1 = .error (.onLoadFailure e))
    ∧ (p.onLoad = .ok () ↔ (m.load_static_plugin p).2.1 = .ok ())
    ∧ (p.onLoad = .ok () →
        (m.load_static_plugin p).1.plugins = m.plugins ++ [PluginType.static p]) := by
  cases h : p.onLoad with
  | error e => simp [PluginManager.load_static_plugin, h]
  | ok u => cases u; simp [PluginManager.load_static_plugin, h]

/-- Concrete host constants used by the witness theorems, following the
concrete scenario of the design document. -/
def hostW : Host := ⟨"1.75.0", "1.0.0"⟩

/-- A plugin whose `on_load` succeeds, used by the witness theorems. -/
def goodPlugin : Plugin := ⟨"good", .ok ()⟩

/-- A plugin whose `on_load` fails, used by the witness theorems. -/
def badPlugin : Plugin := ⟨"bad", .error "boom"⟩

/-- A conforming module constructing `goodPlugin`. -/
def goodLib : Library := ⟨some "1.75.0", some "1.0.0", some goodPlugin⟩

/-- A conforming module constructing `badPlugin`. -/
def badLib : Library := ⟨some "1.75.0", some "1.0.0", some badPlugin⟩

theorem c1_onload_error_aborts_registration_witness :
    badPlugin.onLoad = .error "boom"
    ∧ (PluginManager.new.load_static_plugin badPlugin).1 = PluginManager.new
    ∧ (PluginManager.new.load_plugin hostW (some badLib)).2.1
        = .error (.onLoadFailure "boom") := by
  refine ⟨rfl, ?_, ?_⟩
  · exact (c1_onload_error_aborts_registration hostW PluginManager.new badPlugin
      badLib "boom" rfl rfl rfl rfl).1
  · exact (c1_onload_error_aborts_registration hostW PluginManager.new badPlugin
      badLib "boom" rfl rfl rfl rfl).2.2.2.2.2.1

theorem c10_static_load_fails_iff_onload_fails_witness :
    goodPlugin.onLoad = .ok ()
    ∧ (PluginManager.new.load_static_plugin goodPlugin).1.plugins
        = [PluginType.static goodPlugin] := by
  refine ⟨rfl, ?_⟩
  have h := (c10_static_load_fails_iff_onload_fails PluginManager.new goodPlugin).2.2.2 rfl
  simpa [PluginManager.new] using h

/-- C2: a version-string mismatch in either handshake component makes
the dynamic loader fail immediately with the corresponding mismatch
error carrying the expected and found strings, with `_plugin_create`
never invoked and the manager state unchanged (so subsequent
registrations start from the same state). -/
theorem c2_version_mismatch_fails_before_create (host : Host) (m : PluginManager)
    (lib : Library) :
    (∀ rv, lib.rustcVersionSym = some rv → rv ≠ host.RUSTC_VERSION →
      (m.load_plugin host (some lib)).1 = m
      ∧ (m.load_plugin host (some lib)).2.1
          = .error (.versionMismatch .toolchain host.RUSTC_VERSION rv)
      ∧ Event.callCreatePlugin ∉ (m.load_plugin host (some lib)).2.2
      ∧ (∀ n, Event.callOnLoad n ∉ (m.load_plugin host (some lib)).2.2))
    ∧ (∀ pv, lib.rustcVersionSym = some host.RUSTC_VERSION →
        lib.packageVersionSym = some pv → pv ≠ host.PACKAGE_VERSION →
      (m.load_plugin host (some lib)).1 = m
      ∧ (m.load_plugin host (some lib)).2.1
          = .error (.versionMismatch .package host.PACKAGE_VERSION pv)
      ∧ Event.callCreatePlugin ∉ (m.load_plugin host (some lib)).2.2
      ∧ (∀ n, Event.callOnLoad n ∉ (m.load_plugin host (some lib)).2.2)) := by
  constructor
  · intro rv h1 hne
    simp [PluginManager.load_plugin, h1, hne]
  · intro pv h1 h2 hne
    simp [PluginManager.load_plugin, h1, h2, hne]

theorem c2_version_mismatch_fails_before_create_witness :
    (("1.74.0" : String) ≠ hostW.RUSTC_VERSION)
    ∧ (PluginManager.new.load_plugin hostW
        (some ⟨some "1.74.0", some "1.0.0", some goodPlugin⟩)).2.1
        = .error (.versionMismatch .toolchain hostW.RUSTC_VERSION "1.74.0")
    ∧ Event.callCreatePlugin ∉ (PluginManager.new.load_plugin hostW
        (some ⟨some "1.74.0", some "1.0.0", some goodPlugin⟩)).2.2 := by
  have h := (c2_version_mismatch_fails_before_create hostW PluginManager.new
    ⟨some "1.74.0", some "1.0.0", some goodPlugin⟩).1 "1.74.0" rfl (by decide)
  exact ⟨by decide, h.2.1, h.2.2.1⟩

/-- Every drain trace satisfies the release-after-drop discipline: a
library release only ever directly follows the destruction of the
plugin value it was bundled with. -/
theorem releaseAfterDrop_unloadTrace (prev : Option Event) (ps : List PluginType) :
    releaseAfterDrop prev (unloadTrace ps) = true := by
  induction ps generalizing prev with
  | nil => rfl
  | cons pt rest ih =>
    cases pt with
    | dynamic p => simp [unloadTrace, PluginType.dropEvents, releaseAfterDrop, ih]
    | static p => simp [unloadTrace, PluginType.dropEvents, releaseAfterDrop, ih]

/-- C5: whenever a dynamic handle is destroyed, the plugin value is
dropped strictly before the library is released, and the reverse never
occurs: the handle drop itself emits the drop before the release, and
every trace of the loader (once a plugin was constructed), of the
drain, and of manager teardown satisfies the release-after-drop
discipline. -/
theorem c5_plugin_dropped_strictly_before_library (host : Host)
    (openResult : Option Library) (m : PluginManager) (p : Plugin) :
    (PluginType.dynamic p).dropEvents = [.dropPlugin p.name, .releaseLibrary]
    ∧ (Event.callCreatePlugin ∈ (m.load_plugin host openResult).2.2 →
        releaseAfterDrop none (m.load_plugin host openResult).2.2 = true)
    ∧ releaseAfterDrop none (m.unload).2 = true
    ∧ releaseAfterDrop none m.dropEvents = true := by
  have hdrop : releaseAfterDrop none m.dropEvents = true := by
    have h : m.dropEvents = (m.unload).2 := by
      simp [PluginManager.dropEvents, PluginManager.unload, dropListTrace]
    rw [h]
    exact releaseAfterDrop_unloadTrace none m.plugins
  refine ⟨rfl, ?_, releaseAfterDrop_unloadTrace none m.plugins, hdrop⟩
  intro hmem
  rcases openResult with _ | lib
  · simp [PluginManager.load_plugin] at hmem
  · rcases lib with ⟨rv, pv, pc⟩
    rcases rv with _ | rv
    · simp [PluginManager.load_plugin] at hmem
    · by_cases hrv : rv = host.RUSTC_VERSION
      · subst hrv
        rcases pv with _ | pv
        · simp [PluginManager.load_plugin] at hmem
        · by_cases hpv : pv = host.PACKAGE_VERSION
          · subst hpv
            rcases pc with _ | created
            · simp [PluginManager.load_plugin] at hmem
            · cases h : created.onLoad with
              | error e =>
                simp [PluginManager.load_plugin, h, releaseAfterDrop,
                  PluginType.dropEvents]
              | ok u =>
                cases u
                simp [PluginManager.load_plugin, h, releaseAfterDrop]
          · simp [PluginManager.load_plugin, hpv] at hmem
      · simp [PluginManager.load_plugin, hrv] at hmem

theorem c5_plugin_dropped_strictly_before_library_witness :
    Event.callCreatePlugin ∈ (PluginManager.new.load_plugin hostW (some badLib)).2.2
    ∧ releaseAfterDrop none (PluginManager.new.load_plugin hostW (some badLib)).2.2
        = true := by
  refine ⟨by decide, ?_⟩
  exact (c5_plugin_dropped_strictly_before_library hostW (some badLib)
    PluginManager.new badPlugin).2.1 (by decide)

/-- C8: loading a conforming module whose two version strings match the
host constants and whose plugin loads successfully succeeds, appends
the new handle at the end of the ordered list, keeps every previously
registered handle in its former position, and increases the registered
count by exactly one. -/
theorem c8_conforming_load_appends_one (host : Host) (m : PluginManager)
    (lib : Library) (p : Plugin)
    (h1 : lib.rustcVersionSym = some host.RUSTC_VERSION)
    (h2 : lib.packageVersionSym = some host.PACKAGE_VERSION)
    (h3 : lib.pluginCreateSym = some p)
    (h4 : p.onLoad = .ok ()) :
    (m.load_plugin host (some lib)).2.1 = .ok ()
    ∧ (m.load_plugin host (some lib)).1.plugins = m.plugins ++ [PluginType.dynamic p]
    ∧ (m.load_plugin host (some lib)).1.plugins.length = m.plugins.length + 1
    ∧ (m.load_plugin host (some lib)).1.iterate = m.iterate ++ [p] := by
  simp [PluginManager.load_plugin, PluginManager.iterate, h1, h2, h3, h4,
    PluginType.plugin]

theorem c8_conforming_load_appends_one_witness :
    goodLib.rustcVersionSym = some hostW.RUSTC_VERSION
    ∧ goodPlugin.onLoad = .ok ()
    ∧ (PluginManager.new.load_plugin hostW (some goodLib)).2.1 = .ok ()
    ∧ (PluginManager.new.load_plugin hostW (some goodLib)).1.plugins.length = 1 := by
  refine ⟨rfl, rfl,
    (c8_conforming_load_appends_one hostW PluginManager.new goodLib goodPlugin
      rfl rfl rfl rfl).1, ?_⟩
  have h := (c8_conforming_load_appends_one hostW PluginManager.new goodLib goodPlugin
    rfl rfl rfl rfl).2.2.1
  simpa [PluginManager.new] using h

/-- C9: a module emitted by the declaration mechanism, built with the
same constants as the host, exports the two version entry points
returning strings equal to the host constants and a constructor entry
point returning the declared plugin (so its `name` behaves as
declared), and feeding it to the dynamic loader can produce neither a
version-mismatch nor a missing-symbol failure. -/
theorem c9_declare_plugin_roundtrip (host : Host) (constructor : Unit → Plugin)
    (m : PluginManager) :
    (declare_plugin host constructor).rustcVersionSym = some host.RUSTC_VERSION
    ∧ (declare_plugin host constructor).packageVersionSym = some host.PACKAGE_VERSION
    ∧ (declare_plugin host constructor).pluginCreateSym = some (constructor ())
    ∧ ((declare_plugin host constructor).pluginCreateSym.map Plugin.name
        = some (constructor ()).name)
    ∧ (∀ c ex fd, (m.load_plugin host (some (declare_plugin host constructor))).2.1
        ≠ .error (.versionMismatch c ex fd))
    ∧ (∀ s, (m.load_plugin host (some (declare_plugin host constructor))).2.1
        ≠ .error (.missingSymbol s)) := by
  refine ⟨rfl, rfl, rfl, rfl, ?_, ?_⟩
  · intro c ex fd
    cases h : (constructor ()).onLoad with
    | error e => simp [PluginManager.load_plugin, declare_plugin, h]
    | ok u => cases u; simp [PluginManager.load_plugin, declare_plugin, h]
  · intro s
    cases h : (constructor ()).onLoad with
    | error e => simp [PluginManager.load_plugin, declare_plugin, h]
    | ok u => cases u; simp [PluginManager.load_plugin, declare_plugin, h]

theorem c9_declare_plugin_roundtrip_witness :
    (declare_plugin hostW (fun _ => goodPlugin)).rustcVersionSym
        = some hostW.RUSTC_VERSION
    ∧ (PluginManager.new.load_plugin hostW
        (some (declare_plugin hostW (fun _ => goodPlugin)))).2.1
        ≠ .error (.missingSymbol "_plugin_create") :=
  ⟨(c9_declare_plugin_roundtrip hostW (fun _ => goodPlugin) PluginManager.new).1,
    (c9_declare_plugin_roundtrip hostW (fun _ => goodPlugin)
      PluginManager.new).2.2.2.2.2 "_plugin_create"⟩

/-- C6 counterexample: for a plugin value whose `on_load` fails,
static registration on a fresh manager followed by iteration yields
zero elements, not exactly one, so the claim fails when quantified
over every plugin value. -/
theorem c6_counterexample_failing_onload_not_iterated :
    badPlugin.onLoad = .error "boom"
    ∧ (PluginManager.new.load_static_plugin badPlugin).1.iterate = []
    ∧ (PluginManager.new.load_static_plugin badPlugin).1.iterate.length ≠ 1 := by
  refine ⟨rfl, rfl, by decide⟩

/-- C6 (amended): for every plugin value whose `on_load` succeeds,
static registration on a fresh manager followed by iteration yields
exactly one element, whose `name` equals the name of the registered
plugin; in general iteration yields exactly the currently registered
plugins, in load order. -/
theorem c6_register_static_then_iterate (m : PluginManager) (p : Plugin)
    (hp : p.onLoad = .ok ()) :
    (PluginManager.new.load_static_plugin p).1.iterate = [p]
    ∧ ((PluginManager.new.load_static_plugin p).1.iterate.map Plugin.name) = [p.name]
    ∧ m.iterate = m.plugins.map PluginType.plugin := by
  refine ⟨?_, ?_, rfl⟩ <;>
    simp [PluginManager.load_static_plugin, PluginManager.iterate, PluginManager.new,
      hp, PluginType.plugin]

theorem c6_register_static_then_iterate_witness :
    goodPlugin.onLoad = .ok ()
    ∧ (PluginManager.new.load_static_plugin goodPlugin).1.iterate = [goodPlugin]
    ∧ ((PluginManager.new.load_static_plugin goodPlugin).1.iterate.map Plugin.name)
        = ["good"] := by
  have h := c6_register_static_then_iterate PluginManager.new goodPlugin rfl
  exact ⟨rfl, h.1, h.2.1⟩

/-- C7 counterexample: a module lacking the `_package_version`
handshake symbol whose `_rustc_version` string mismatches the host is
rejected with the toolchain version-mismatch error, not with a
missing-symbol error, so the missing-handshake error shape of the
claim does not hold for every module lacking a handshake symbol. -/
theorem c7_counterexample_mismatch_reported_before_missing_symbol :
    (Library.mk (some "1.74.0") none none).packageVersionSym = none
    ∧ (PluginManager.new.load_plugin hostW
        (some (Library.mk (some "1.74.0") none none))).2.1
        = .error (.versionMismatch .toolchain "1.75.0" "1.74.0")
    ∧ (PluginManager.new.load_plugin hostW
        (some (Library.mk (some "1.74.0") none none))).2.1
        ≠ .error (.missingSymbol "_package_version")
    ∧ (PluginManager.new.load_plugin hostW
        (some (Library.mk (some "1.74.0") none none))).2.1
        ≠ .error (.missingSymbol "_rustc_version") := by
  refine ⟨rfl, by decide, by decide, by decide⟩

/-- C7 (amended): a module lacking a required handshake symbol is
always rejected with nothing registered and no plugin constructed; the
error is the missing-symbol error when `_rustc_version` is absent, and
when `_package_version` is absent provided the toolchain check passed
(when the toolchain string mismatches first, the version-mismatch
error is reported instead, but the load still fails with the manager
unchanged). -/
theorem c7_missing_handshake_rejected (host : Host) (m : PluginManager)
    (lib : Library) :
    (lib.rustcVersionSym = none →
      (m.load_plugin host (some lib)).1 = m
      ∧ (m.load_plugin host (some lib)).2.1 = .error (.missingSymbol "_rustc_version")
      ∧ Event.callCreatePlugin ∉ (m.load_plugin host (some lib)).2.2)
    ∧ (lib.rustcVersionSym = some host.RUSTC_VERSION → lib.packageVersionSym = none →
      (m.load_plugin host (some lib)).1 = m
      ∧ (m.load_plugin host (some lib)).2.1
          = .error (.missingSymbol "_package_version")
      ∧ Event.callCreatePlugin ∉ (m.load_plugin host (some lib)).2.2)
    ∧ (lib.packageVersionSym = none →
      (m.load_plugin host (some lib)).1 = m
      ∧ (∃ err, (m.load_plugin host (some lib)).2.1 = .error err)
      ∧ Event.callCreatePlugin ∉ (m.load_plugin host (some lib)).2.2) := by
  refine ⟨?_, ?_, ?_⟩
  · intro h1
    simp [PluginManager.load_plugin, h1]
  · intro h1 h2
    simp [PluginManager.load_plugin, h1, h2]
  · intro h2
    rcases hrv : lib.rustcVersionSym with _ | rv
    · simp [PluginManager.load_plugin, hrv]
    · by_cases h : rv = host.RUSTC_VERSION
      · subst h
        simp [PluginManager.load_plugin, hrv, h2]
      · simp [PluginManager.load_plugin, hrv, h]

theorem c7_missing_handshake_rejected_witness :
    (Library.mk none none none).rustcVersionSym = none
    ∧ (PluginManager.new.load_plugin hostW (some (Library.mk none none none))).2.1
        = .error (.missingSymbol "_rustc_version")
    ∧ (PluginManager.new.load_plugin hostW (some (Library.mk none none none))).1
        = PluginManager.new := by
  have h := (c7_missing_handshake_rejected hostW PluginManager.new
    (Library.mk none none none)).1 rfl
  exact ⟨rfl, h.2.1, h.1⟩

end Tsunami
